import Mathlib

/-!
Verification of the measurement-aggregation and durable-append pipeline of the
weight-input-form repository.

The front end (src/src/App.js) holds form state with 8 "spouts", each with 3
raw sample strings, derived `average`/`stdDev` fields and a comment.  The
back end (src/weight-check-backend/index.js) appends one spreadsheet row per
spout to an Excel file via a read-modify-write of the whole workbook.

Modelling conventions (shallow embedding):
* A raw sample input (a JS string) is classified by how JS `Number(...)`
  coerces it: the empty string, a string parsing to a finite rational,
  a string parsing to an infinity, or a malformed (NaN-producing) string.
* JS numbers are modelled by `JSNum`: NaN, signed infinity, or a rational.
  Ideal rational arithmetic stands in for IEEE doubles; every concrete value
  used in a theorem below is exactly representable as a double, and
  `Number.prototype.toFixed` is modelled by its specified rounding rule
  (round to nearest, ties toward the larger value, i.e. `⌊x·10^d + 1/2⌋/10^d`).
* `Math.sqrt` is kept as an explicit function parameter `sqrtFn : ℚ → ℚ`;
  theorems that need a fact about it assume only `sqrtFn 0 = 0`, which holds
  for IEEE square root.  Witnesses instantiate it with `Rat.sqrt`.
-/

/-- Classification of a raw sample input string by JS numeric coercion:
the empty string, a string whose `Number(...)` value is the finite number `q`,
a string coercing to ±Infinity, or a non-empty string coercing to NaN. -/
inductive RawInput where
  | empty : RawInput
  | numeric (q : ℚ) : RawInput
  | infinite (pos : Bool) : RawInput
  | malformed : RawInput
deriving DecidableEq, Repr

/-- A JS number: NaN, a signed infinity, or a finite value (idealised as ℚ). -/
inductive JSNum where
  | nan : JSNum
  | inf (pos : Bool) : JSNum
  | fin (q : ℚ) : JSNum
deriving DecidableEq, Repr

/-- JS `Number(...)` coercion of a raw input string (`Number('') = 0`). -/
def toNumber : RawInput → JSNum
  | .empty => .fin 0
  | .numeric q => .fin q
  | .infinite b => .inf b
  | .malformed => .nan

/-- JS unary minus. -/
def jsNeg : JSNum → JSNum
  | .nan => .nan
  | .inf p => .inf (!p)
  | .fin q => .fin (-q)

/-- JS addition: NaN absorbs; opposite infinities give NaN. -/
def jsAdd : JSNum → JSNum → JSNum
  | .nan, _ => .nan
  | _, .nan => .nan
  | .inf p, .inf q => if p = q then .inf p else .nan
  | .inf p, .fin _ => .inf p
  | .fin _, .inf q => .inf q
  | .fin a, .fin b => .fin (a + b)

/-- JS subtraction `a - b`. -/
def jsSub (a b : JSNum) : JSNum := jsAdd a (jsNeg b)

/-- JS multiplication: NaN absorbs; `Infinity * 0 = NaN`. -/
def jsMul : JSNum → JSNum → JSNum
  | .nan, _ => .nan
  | _, .nan => .nan
  | .inf p, .inf q => .inf (p = q)
  | .inf p, .fin b => if b = 0 then .nan else .inf (p = decide (0 < b))
  | .fin a, .inf q => if a = 0 then .nan else .inf (q = decide (0 < a))
  | .fin a, .fin b => .fin (a * b)

/-- `Math.pow(x, 2)`, i.e. `x * x`. -/
def jsPow2 (x : JSNum) : JSNum := jsMul x x

/-- JS division by a (nonnegative integer) count, as used for `sum / length`. -/
def jsDivNat (a : JSNum) (n : ℕ) : JSNum :=
  match a with
  | .nan => .nan
  | .inf p => .inf p
  | .fin q => if n = 0 then (if q = 0 then .nan else .inf (0 < q)) else .fin (q / n)

/-- JS `<=` after numeric coercion: any comparison involving NaN is false. -/
def jsLe : JSNum → JSNum → Bool
  | .nan, _ => false
  | _, .nan => false
  | .inf p, .inf q => !p || q
  | .inf p, .fin _ => !p
  | .fin _, .inf q => q
  | .fin a, .fin b => decide (a ≤ b)

/-- JS `>=` after numeric coercion. -/
def jsGe (a b : JSNum) : Bool := jsLe b a

/-- `Number.prototype.toFixed(d)` as a numeric rounding: round to the nearest
multiple of `10^(-d)`, ties toward the larger value; NaN and infinities are
passed through (their `toFixed` strings coerce back to themselves). -/
def roundFix (d : ℕ) : JSNum → JSNum
  | .nan => .nan
  | .inf p => .inf p
  | .fin q => .fin ((⌊q * (10 : ℚ) ^ d + 1 / 2⌋ : ℚ) / (10 : ℚ) ^ d)

/-- `Math.sqrt` lifted to `JSNum`; the finite case is the supplied `sqrtFn`
(negative arguments give NaN, as in JS). -/
def jsSqrt (sqrtFn : ℚ → ℚ) : JSNum → JSNum
  | .nan => .nan
  | .inf p => if p then .inf true else .nan
  | .fin q => if q < 0 then .nan else .fin (sqrtFn q)

/-- The result object of `calculateStats`. -/
structure Stats where
  average : JSNum
  stdDev : JSNum
deriving DecidableEq, Repr

/-- `samples.filter(s => s !== '').map(Number)` from `calculateStats`. -/
def filteredSamples (samples : List RawInput) : List JSNum :=
  (samples.filter (fun s => s != RawInput.empty)).map toNumber

/-- `reduce((a, b) => a + b, 0)`. -/
def jsSum (l : List JSNum) : JSNum := l.foldl jsAdd (.fin 0)

/-- Common core of the two `calculateStats` variants in src/src/App.js, which
differ only in the `toFixed` precision applied to the average (`d1`) and the
standard deviation (`d2`).  Mirrors the source: filter out empty strings,
coerce, return `{0, 0}` when nothing remains, otherwise the mean and the
population standard deviation (variance divided by the count), rounded. -/
def calcStatsWith (d1 d2 : ℕ) (sqrtFn : ℚ → ℚ) (samples : List RawInput) : Stats :=
  let fs := filteredSamples samples
  if fs.length = 0 then ⟨.fin 0, .fin 0⟩
  else
    let avg := jsDivNat (jsSum fs) fs.length
    let vr := jsDivNat (jsSum (fs.map (fun b => jsPow2 (jsSub b avg)))) fs.length
    ⟨roundFix d1 avg, roundFix d2 (jsSqrt sqrtFn vr)⟩

/-- `calculateStats` of src/src/App.js lines 35-44: both fields `toFixed(1)`. -/
def calculateStats (sqrtFn : ℚ → ℚ) (samples : List RawInput) : Stats :=
  calcStatsWith 1 1 sqrtFn samples

/-- `calculateStats` of src/src/App.js lines 805-816: average `toFixed(2)`,
standard deviation `toFixed(3)`. -/
def calculateStats3 (sqrtFn : ℚ → ℚ) (samples : List RawInput) : Stats :=
  calcStatsWith 2 3 sqrtFn samples

/-- `TARGET_WEIGHT = 50` (src/src/App.js line 9). -/
def TARGET_WEIGHT : ℚ := 50

/-- `TOLERANCE = 0.5` (src/src/App.js line 10). -/
def TOLERANCE : ℚ := 1 / 2

/-- `MIN_WEIGHT = TARGET_WEIGHT - TOLERANCE` (src/src/App.js line 11). -/
def MIN_WEIGHT : ℚ := TARGET_WEIGHT - TOLERANCE

/-- `MAX_WEIGHT = TARGET_WEIGHT + TOLERANCE` (src/src/App.js line 12). -/
def MAX_WEIGHT : ℚ := TARGET_WEIGHT + TOLERANCE

/-- `isWeightInRange` of src/src/App.js lines 46-48:
`weight !== '' && weight >= MIN_WEIGHT && weight <= MAX_WEIGHT`, where the
comparisons coerce the raw string to a number. -/
def isWeightInRange (w : RawInput) : Bool :=
  (w != RawInput.empty) && jsGe (toNumber w) (.fin MIN_WEIGHT)
    && jsLe (toNumber w) (.fin MAX_WEIGHT)

/-- `isWeightInRange` of src/src/App.js lines 818-821:
`const numWeight = Number(weight); return !isNaN(numWeight) &&
numWeight >= MIN_WEIGHT && numWeight <= MAX_WEIGHT`. -/
def isWeightInRange3 (w : RawInput) : Bool :=
  (toNumber w != JSNum.nan) && jsGe (toNumber w) (.fin MIN_WEIGHT)
    && jsLe (toNumber w) (.fin MAX_WEIGHT)

/-- The three display states of a sample cell. -/
inductive WeightColor where
  | neutral : WeightColor
  | green : WeightColor
  | red : WeightColor
deriving DecidableEq, Repr

/-- `getWeightColor` of src/src/App.js lines 50-55: the empty string keeps the
neutral style, otherwise green when in range and red otherwise. -/
def getWeightColor (w : RawInput) : WeightColor :=
  if w = RawInput.empty then .neutral
  else if isWeightInRange w then .green else .red

example : calculateStats Rat.sqrt [.numeric 50, .numeric 50] = ⟨.fin 50, .fin 0⟩ := by
  simp [calculateStats, calcStatsWith, filteredSamples, toNumber, jsSum, jsAdd, jsDivNat,
    jsSub, jsNeg, jsMul, jsPow2, jsSqrt, roundFix, Rat.sqrt]
  norm_num

example : isWeightInRange (.numeric (99/2)) = true := by
  simp [isWeightInRange, toNumber, jsGe, jsLe, MIN_WEIGHT, MAX_WEIGHT, TARGET_WEIGHT, TOLERANCE]
  norm_num

example : isWeightInRange .empty = false := by
  simp [isWeightInRange]

example : isWeightInRange3 .empty = false := by
  simp [isWeightInRange3, toNumber, jsGe, jsLe, MIN_WEIGHT, MAX_WEIGHT, TARGET_WEIGHT, TOLERANCE]
  norm_num

/-- Per-spout form state (`INITIAL_SPOUT_DATA` shape of src/src/App.js):
three raw sample strings, derived `average`/`stdDev`, and a comment. -/
structure SpoutState where
  samples : List RawInput
  average : JSNum
  stdDev : JSNum
  comments : String
deriving DecidableEq, Repr

/-- Whole-form state (`INITIAL_FORM_STATE` shape of src/src/App.js). -/
structure FormState where
  operatorName : String
  shift : String
  date : String
  time : String
  spoutData : List SpoutState
  generalComments : String
deriving DecidableEq, Repr

/-- `INITIAL_SPOUT_DATA` (src/src/App.js lines 14-19). -/
def INITIAL_SPOUT_DATA : SpoutState :=
  ⟨[.empty, .empty, .empty], .fin 0, .fin 0, ""⟩

/-- `INITIAL_FORM_STATE` (src/src/App.js lines 21-28): 8 fresh spouts. -/
def INITIAL_FORM_STATE : FormState :=
  ⟨"", "", "", "", List.replicate 8 INITIAL_SPOUT_DATA, ""⟩

/-- `handleWeightChange` (src/src/App.js lines 57-76 and 828-843): replace
sample `j` of spout `i` with the raw value and recompute `average`/`stdDev`
from the updated samples in the same state transition.  The statistics
function is a parameter so that both `calculateStats` variants are covered.
`samples.map((s, idx) => idx === j ? v : s)` is exactly `List.set j v`, and
the copied array with slot `i` replaced is `List.set i`. -/
def handleWeightChange (statsFn : List RawInput → Stats) (fd : FormState)
    (i j : ℕ) (v : RawInput) : FormState :=
  match fd.spoutData[i]? with
  | none => fd
  | some sp =>
    let newSamples := sp.samples.set j v
    let st := statsFn newSamples
    { fd with spoutData := fd.spoutData.set i ⟨newSamples, st.average, st.stdDev, sp.comments⟩ }

/-- The dynamic `[field]: value` assignment of `handleSpoutDataChange`: the
caller picks which spout field to overwrite (the UI only ever passes
`'comments'`, but the operation itself accepts any field). -/
inductive SpoutUpdate where
  | samples (l : List RawInput) : SpoutUpdate
  | average (q : JSNum) : SpoutUpdate
  | stdDev (q : JSNum) : SpoutUpdate
  | comments (s : String) : SpoutUpdate
deriving DecidableEq, Repr

/-- `{ ...spout, [field]: value }`. -/
def applySpoutUpdate (sp : SpoutState) : SpoutUpdate → SpoutState
  | .samples l => { sp with samples := l }
  | .average q => { sp with average := q }
  | .stdDev q => { sp with stdDev := q }
  | .comments s => { sp with comments := s }

/-- `handleSpoutDataChange` (src/src/App.js lines 78-91): overwrite one field
of spout `i` without touching the derived statistics. -/
def handleSpoutDataChange (fd : FormState) (i : ℕ) (u : SpoutUpdate) : FormState :=
  match fd.spoutData[i]? with
  | none => fd
  | some sp => { fd with spoutData := fd.spoutData.set i (applySpoutUpdate sp u) }

/-- A spout state whose derived fields agree with the statistics recomputed
from its current samples. -/
def statsConsistentWith (statsFn : List RawInput → Stats) (sp : SpoutState) : Prop :=
  sp.average = (statsFn sp.samples).average ∧ sp.stdDev = (statsFn sp.samples).stdDev

instance (statsFn : List RawInput → Stats) (sp : SpoutState) :
    Decidable (statsConsistentWith statsFn sp) := by
  unfold statsConsistentWith; infer_instance

/-- Every spout of the form satisfies the derived-field invariant. -/
def formConsistent (statsFn : List RawInput → Stats) (fd : FormState) : Prop :=
  ∀ sp ∈ fd.spoutData, statsConsistentWith statsFn sp

instance (statsFn : List RawInput → Stats) (fd : FormState) :
    Decidable (formConsistent statsFn fd) := by
  unfold formConsistent; exact List.decidableBAll _ _

/-- One flattened spout entry of the submission payload
(`formatDataForSubmission`, src/src/App.js lines 476-491). -/
structure SubmissionSpout where
  spoutNumber : ℕ
  samples : List RawInput
  average : JSNum
  stdDev : JSNum
  comments : String
deriving DecidableEq, Repr

/-- The JSON body handed to `fetch` on submit. -/
structure SubmissionPayload where
  operatorName : String
  shift : String
  date : String
  time : String
  generalComments : String
  spouts : List SubmissionSpout
deriving DecidableEq, Repr

/-- `data.spoutData.map((spout, index) => ({ spoutNumber: index + 1, ... }))`
unrolled with an explicit starting index. -/
def formatSpoutsFrom : ℕ → List SpoutState → List SubmissionSpout
  | _, [] => []
  | i, sp :: rest =>
    ⟨i + 1, sp.samples, sp.average, sp.stdDev, sp.comments⟩ :: formatSpoutsFrom (i + 1) rest

/-- `formatDataForSubmission` (src/src/App.js lines 476-491). -/
def formatDataForSubmission (fd : FormState) : SubmissionPayload :=
  ⟨fd.operatorName, fd.shift, fd.date, fd.time, fd.generalComments,
    formatSpoutsFrom 0 fd.spoutData⟩

/-- Outcome of a submit attempt: either the client-side validation throws
before the network call, or the payload is posted. -/
inductive SubmitOutcome where
  | validationError (msg : String) : SubmitOutcome
  | post (payload : SubmissionPayload) : SubmitOutcome
deriving DecidableEq, Repr

/-- The JS falsiness test `!s.trim()`: `s.trim()` is the empty (falsy)
string exactly when every character of `s` is whitespace. -/
def isBlank (s : String) : Bool := s.toList.all Char.isWhitespace

/-- `handleSubmit` (src/src/App.js lines 493-537): `if
(!formData.operatorName.trim()) throw new Error('Operator name is required')`
runs before the `fetch`, so an empty (or all-whitespace) operator name stops
the submission with no persistence attempt. -/
def handleSubmit (fd : FormState) : SubmitOutcome :=
  if isBlank fd.operatorName then .validationError "Operator name is required"
  else .post (formatDataForSubmission fd)

/-- A spreadsheet cell value as supplied in the request body JSON: a string,
a number, or JS `undefined` (e.g. a missing array slot). -/
inductive Cell where
  | str (s : String) : Cell
  | num (q : JSNum) : Cell
  | undef : Cell
deriving DecidableEq, Repr

/-- One entry of `req.body.spoutData` as used by the backend
(src/weight-check-backend/index.js lines 37-50). -/
structure SpoutPayload where
  samples : List Cell
  average : Cell
  comments : Cell
deriving DecidableEq, Repr

/-- The request body fields the backend reads. -/
structure ShiftPayload where
  date : Cell
  time : Cell
  operatorName : Cell
  shift : Cell
  spoutData : List SpoutPayload
deriving DecidableEq, Repr

/-- One persisted spreadsheet data row, keyed as in `sheet.addRow` of
src/weight-check-backend/index.js lines 38-49. -/
structure Row where
  date : Cell
  time : Cell
  operatorName : Cell
  shift : Cell
  spout : Cell
  sample1 : Cell
  sample2 : Cell
  sample3 : Cell
  average : Cell
  comments : Cell
deriving DecidableEq, Repr

/-- The row the backend builds for spout number `index` (0-based):
`spout: `Spout ${index + 1}``, the first three sample slots, the submitted
average and comments.  The submitted standard deviation is never read. -/
def mkRow (b : ShiftPayload) (s : SpoutPayload) (index : ℕ) : Row :=
  ⟨b.date, b.time, b.operatorName, b.shift,
    .str ("Spout " ++ toString (index + 1)),
    s.samples.getD 0 .undef, s.samples.getD 1 .undef, s.samples.getD 2 .undef,
    s.average, s.comments⟩

/-- A bootstrap column definition `{ header, key }`. -/
structure Column where
  header : String
  key : String
deriving DecidableEq, Repr

/-- `sheet.columns` assigned at schema bootstrap
(src/weight-check-backend/index.js lines 23-34). -/
def canonicalColumns : List Column :=
  [⟨"Date", "date"⟩, ⟨"Time", "time"⟩, ⟨"Operator", "operatorName"⟩,
   ⟨"Shift", "shift"⟩, ⟨"Spout", "spout"⟩, ⟨"Sample 1", "sample1"⟩,
   ⟨"Sample 2", "sample2"⟩, ⟨"Sample 3", "sample3"⟩, ⟨"Average", "average"⟩,
   ⟨"Comments", "comments"⟩]

/-- The header row written at schema bootstrap. -/
def canonicalHeaders : List String := canonicalColumns.map Column.header

/-- Modelled from the spec: the PersistedRow field list of spec section 3,
`{date, time, operatorName, shift, groupLabel, sample_1..sample_N, average,
standardDeviation, comment}` with N = 3, kept for comparison against the
schema the code actually bootstraps. -/
def specPersistedRowKeys : List String :=
  ["date", "time", "operatorName", "shift", "groupLabel",
   "sample_1", "sample_2", "sample_3", "average", "standardDeviation", "comment"]

/-- The `Weight Checks` worksheet: a header row followed by data rows. -/
structure Worksheet where
  columns : List String
  rows : List Row
deriving DecidableEq, Repr

/-- The state of the target file path: nonexistent, unreadable as a valid
workbook, or a readable workbook that may or may not contain the
`Weight Checks` sheet. -/
inductive FileState where
  | absent : FileState
  | corrupt : FileState
  | wb (sheet : Option Worksheet) : FileState
deriving DecidableEq, Repr

/-- The HTTP outcome of one POST: `res.json({success:true})` or the 500 sent
by the outer catch. -/
inductive Response where
  | success : Response
  | serverError : Response
deriving DecidableEq, Repr

/-- Result of one request: the response and the file state afterwards. -/
structure PostResult where
  response : Response
  file : FileState
deriving DecidableEq, Repr

/-- `req.body.spoutData.forEach((spout, index) => sheet.addRow(...))`
unrolled with an explicit starting index. -/
def flattenFrom (b : ShiftPayload) : ℕ → List SpoutPayload → List Row
  | _, [] => []
  | i, s :: rest => mkRow b s i :: flattenFrom b (i + 1) rest

/-- All rows appended for one request body, in spout order. -/
def flattenRows (b : ShiftPayload) : List Row := flattenFrom b 0 b.spoutData

/-- The whole `app.post('/api/weight-check')` handler
(src/weight-check-backend/index.js lines 13-58) as one read-modify-write:

* file absent or unreadable: `workbook.xlsx.readFile` throws, the inner catch
  builds a fresh sheet with `canonicalColumns`, the rows are added and the
  whole file is replaced by the new workbook;
* file readable and the sheet present: rows are appended after the existing
  ones — the existing header is never inspected — and the file rewritten;
* file readable but no `Weight Checks` sheet: `getWorksheet` returns
  undefined without throwing, `sheet.addRow` then throws, the outer catch
  answers 500 and `writeFile` is never reached, so the file is untouched. -/
def appendShift (file : FileState) (b : ShiftPayload) : PostResult :=
  match file with
  | .absent => ⟨.success, .wb (some ⟨canonicalHeaders, flattenRows b⟩)⟩
  | .corrupt => ⟨.success, .wb (some ⟨canonicalHeaders, flattenRows b⟩)⟩
  | .wb none => ⟨.serverError, .wb none⟩
  | .wb (some ws) => ⟨.success, .wb (some ⟨ws.columns, ws.rows ++ flattenRows b⟩)⟩

/-- Number of data rows stored at the path. -/
def rowCount : FileState → ℕ
  | .wb (some ws) => ws.rows.length
  | _ => 0

/-- One in-flight request of the concurrency model: its body and the file
snapshot it has read so far (none before its read step). -/
structure ReqState where
  body : ShiftPayload
  snapshot : Option FileState
deriving DecidableEq, Repr

/-- Two concurrent POSTs `A` and `B` against the same path. -/
structure SysState where
  file : FileState
  reqA : ReqState
  reqB : ReqState
deriving DecidableEq, Repr

/-- Interleaving steps: each request first reads the file, later writes back
the workbook it computed from its own snapshot (the read-modify-write of the
handler is not atomic: the write replaces the file with the result of
`appendShift` applied to the snapshot, ignoring writes that happened in
between). -/
inductive RaceAction where
  | readA : RaceAction
  | readB : RaceAction
  | writeA : RaceAction
  | writeB : RaceAction
deriving DecidableEq, Repr

/-- One scheduler step. -/
def raceStep (s : SysState) : RaceAction → SysState
  | .readA => { s with reqA := { s.reqA with snapshot := some s.file } }
  | .readB => { s with reqB := { s.reqB with snapshot := some s.file } }
  | .writeA =>
    match s.reqA.snapshot with
    | none => s
    | some snap => { s with file := (appendShift snap s.reqA.body).file }
  | .writeB =>
    match s.reqB.snapshot with
    | none => s
    | some snap => { s with file := (appendShift snap s.reqB.body).file }

/-- Run a schedule of two requests from an initial file state and return the
final file state. -/
def runRace (f0 : FileState) (bA bB : ShiftPayload) (sched : List RaceAction) : FileState :=
  (sched.foldl raceStep ⟨f0, ⟨bA, none⟩, ⟨bB, none⟩⟩).file

lemma jsAdd_nan_right (a : JSNum) : jsAdd a .nan = .nan := by
  cases a <;> rfl

lemma jsAdd_nan_left (a : JSNum) : jsAdd .nan a = .nan := by
  cases a <;> rfl

lemma foldl_jsAdd_nan (l : List JSNum) : l.foldl jsAdd .nan = .nan := by
  induction l with
  | nil => rfl
  | cons y ys ih => rw [List.foldl_cons, jsAdd_nan_left]; exact ih

lemma foldl_jsAdd_of_nan_mem (l : List JSNum) :
    ∀ a : JSNum, JSNum.nan ∈ l → l.foldl jsAdd a = .nan := by
  induction l with
  | nil => intro a h; cases h
  | cons x xs ih =>
    intro a h
    rcases List.mem_cons.mp h with h | h
    · subst h
      rw [List.foldl_cons, jsAdd_nan_right]
      exact foldl_jsAdd_nan xs
    · exact ih _ h

lemma jsSum_eq_nan_of_mem {l : List JSNum} (h : JSNum.nan ∈ l) : jsSum l = .nan :=
  foldl_jsAdd_of_nan_mem l _ h

lemma foldl_jsAdd_of_all_fin (v : ℚ) (l : List JSNum) (hl : ∀ x ∈ l, x = JSNum.fin v) :
    ∀ a : ℚ, l.foldl jsAdd (.fin a) = .fin (a + l.length * v) := by
  induction l with
  | nil => intro a; simp
  | cons x xs ih =>
    intro a
    have hx : x = JSNum.fin v := hl x (List.mem_cons_self _ _)
    subst hx
    rw [List.foldl_cons]
    show xs.foldl jsAdd (.fin (a + v)) = _
    rw [ih (fun y hy => hl y (List.mem_cons_of_mem _ hy)) (a + v)]
    congr 1
    simp only [List.length_cons]
    push_cast
    ring

lemma jsSum_of_all_fin (v : ℚ) (l : List JSNum) (hl : ∀ x ∈ l, x = JSNum.fin v) :
    jsSum l = .fin (l.length * v) := by
  have := foldl_jsAdd_of_all_fin v l hl 0
  simpa [jsSum] using this

lemma roundFix_fin_zero (d : ℕ) : roundFix d (.fin 0) = .fin 0 := by
  simp [roundFix]
  norm_num

lemma roundFix_exact (d : ℕ) (v : ℚ) (k : ℤ) (h : v * (10 : ℚ) ^ d = k) :
    roundFix d (.fin v) = .fin v := by
  simp only [roundFix, h]
  have hfloor : ⌊(k : ℚ) + 1 / 2⌋ = k := by
    rw [Int.floor_eq_iff]
    constructor
    · linarith
    · linarith
  rw [hfloor]
  congr 1
  have hpow : ((10 : ℚ) ^ d) ≠ 0 := by positivity
  field_simp at h ⊢
  linarith [h]

lemma filteredSamples_all_fin {v : ℚ} {samples : List RawInput}
    (hall : ∀ s ∈ samples, s = RawInput.empty ∨ s = RawInput.numeric v) :
    ∀ x ∈ filteredSamples samples, x = JSNum.fin v := by
  intro x hx
  simp only [filteredSamples, List.mem_map, List.mem_filter] at hx
  obtain ⟨s, ⟨hs, hne⟩, rfl⟩ := hx
  rcases hall s hs with h | h
  · subst h; simp at hne
  · subst h; rfl

lemma filteredSamples_mem {v : ℚ} {samples : List RawInput}
    (hmem : RawInput.numeric v ∈ samples) :
    JSNum.fin v ∈ filteredSamples samples := by
  simp only [filteredSamples, List.mem_map, List.mem_filter]
  exact ⟨.numeric v, ⟨hmem, by simp⟩, rfl⟩

lemma calcStatsWith_of_length_ne (d1 d2 : ℕ) (sqrtFn : ℚ → ℚ) (samples : List RawInput)
    (h : (filteredSamples samples).length ≠ 0) :
    calcStatsWith d1 d2 sqrtFn samples =
      ⟨roundFix d1 (jsDivNat (jsSum (filteredSamples samples)) (filteredSamples samples).length),
       roundFix d2 (jsSqrt sqrtFn (jsDivNat
         (jsSum ((filteredSamples samples).map (fun b => jsPow2 (jsSub b
           (jsDivNat (jsSum (filteredSamples samples)) (filteredSamples samples).length)))))
         (filteredSamples samples).length))⟩ := by
  simp only [calcStatsWith]
  rw [if_neg h]

lemma calcStatsWith_allsame (d1 d2 : ℕ) (sqrtFn : ℚ → ℚ) (hs : sqrtFn 0 = 0)
    (v : ℚ) (samples : List RawInput)
    (hall : ∀ s ∈ samples, s = RawInput.empty ∨ s = RawInput.numeric v)
    (hmem : RawInput.numeric v ∈ samples) :
    calcStatsWith d1 d2 sqrtFn samples = ⟨roundFix d1 (.fin v), .fin 0⟩ := by
  have hfs_all := filteredSamples_all_fin hall
  have hfs_mem := filteredSamples_mem hmem
  have hne : (filteredSamples samples).length ≠ 0 := by
    intro h0
    rw [List.length_eq_zero] at h0
    rw [h0] at hfs_mem
    cases hfs_mem
  have hnq : ((filteredSamples samples).length : ℚ) ≠ 0 := Nat.cast_ne_zero.mpr hne
  have hsum : jsSum (filteredSamples samples)
      = .fin ((filteredSamples samples).length * v) :=
    jsSum_of_all_fin v _ hfs_all
  have havg : jsDivNat (jsSum (filteredSamples samples)) (filteredSamples samples).length
      = .fin v := by
    rw [hsum]
    simp only [jsDivNat, if_neg hne]
    congr 1
    field_simp
  have hmap : ∀ y ∈ (filteredSamples samples).map (fun b => jsPow2 (jsSub b
      (jsDivNat (jsSum (filteredSamples samples)) (filteredSamples samples).length))),
      y = JSNum.fin 0 := by
    intro y hy
    rw [List.mem_map] at hy
    obtain ⟨b, hb, rfl⟩ := hy
    rw [hfs_all b hb, havg]
    show jsPow2 (jsAdd (.fin v) (jsNeg (.fin v))) = _
    simp [jsNeg, jsAdd, jsPow2, jsMul]
  have hvr : jsDivNat (jsSum ((filteredSamples samples).map (fun b => jsPow2 (jsSub b
      (jsDivNat (jsSum (filteredSamples samples)) (filteredSamples samples).length)))))
      (filteredSamples samples).length = .fin 0 := by
    have h0 : jsSum ((filteredSamples samples).map (fun b => jsPow2 (jsSub b
        (jsDivNat (jsSum (filteredSamples samples)) (filteredSamples samples).length))))
        = .fin 0 := by
      have := jsSum_of_all_fin 0 _ hmap
      simpa using this
    rw [h0]
    simp only [jsDivNat]
    rw [if_neg hne]
    norm_num
  rw [calcStatsWith_of_length_ne d1 d2 sqrtFn samples hne, hvr, havg]
  have hsq : jsSqrt sqrtFn (.fin 0) = .fin 0 := by
    simp [jsSqrt, hs]
  rw [hsq, roundFix_fin_zero]

lemma calcStatsWith_all_empty (d1 d2 : ℕ) (sqrtFn : ℚ → ℚ) (samples : List RawInput)
    (hE : ∀ s ∈ samples, s = RawInput.empty) :
    calcStatsWith d1 d2 sqrtFn samples = ⟨.fin 0, .fin 0⟩ := by
  have hnil : filteredSamples samples = [] := by
    simp only [filteredSamples, List.map_eq_nil_iff, List.filter_eq_nil_iff]
    intro s hs
    rw [hE s hs]
    simp
  rw [calcStatsWith]
  simp [hnil]

lemma flattenFrom_length (b : ShiftPayload) :
    ∀ (i : ℕ) (l : List SpoutPayload), (flattenFrom b i l).length = l.length := by
  intro i l
  induction l generalizing i with
  | nil => rfl
  | cons s rest ih => simp [flattenFrom, ih]

lemma flattenFrom_getElem? (b : ShiftPayload) :
    ∀ (l : List SpoutPayload) (k i : ℕ),
      (flattenFrom b k l)[i]? = (l[i]?).map (fun s => mkRow b s (k + i)) := by
  intro l
  induction l with
  | nil => intro k i; simp [flattenFrom]
  | cons s rest ih =>
    intro k i
    cases i with
    | zero => simp [flattenFrom]
    | succ n =>
      have harith : k + 1 + n = k + (n + 1) := by omega
      simp only [flattenFrom, List.getElem?_cons_succ, ih (k + 1) n, harith]

lemma flattenRows_length (b : ShiftPayload) :
    (flattenRows b).length = b.spoutData.length :=
  flattenFrom_length b 0 b.spoutData

lemma flattenRows_getElem? (b : ShiftPayload) (i : ℕ) :
    (flattenRows b)[i]? = (b.spoutData[i]?).map (fun s => mkRow b s i) := by
  have := flattenFrom_getElem? b b.spoutData 0 i
  simpa [flattenRows] using this

/-- A concrete spout entry used to instantiate theorems with hypotheses. -/
def sampleSpout : SpoutPayload :=
  ⟨[.str "49.8", .str "50.1", .str "50.0"], .str "50.0", .str "ok"⟩

/-- A concrete 8-spout request body. -/
def sampleBody : ShiftPayload :=
  ⟨.str "2024-01-01", .str "08:00", .str "Alice", .str "Morning",
    List.replicate 8 sampleSpout⟩

/-- A second concrete 8-spout request body. -/
def sampleBodyB : ShiftPayload :=
  ⟨.str "2024-01-01", .str "09:00", .str "Bob", .str "Morning",
    List.replicate 8 sampleSpout⟩

/-- C1: appending a ShiftRecord with 8 groups to an empty/nonexistent path
produces a table of exactly the header plus 8 data rows, one row per group in
index order with 1-based `Spout n` labels; a second 8-group append to the
same path yields header plus 16 data rows with the first 8 unchanged — rows
are only ever appended at the end, never reordered, never deduplicated. -/
theorem c1_roundTrip_append (b1 b2 : ShiftPayload) (f0 : FileState)
    (h0 : f0 = FileState.absent ∨ f0 = FileState.corrupt)
    (h1 : b1.spoutData.length = 8) (h2 : b2.spoutData.length = 8) :
    (appendShift f0 b1).response = Response.success ∧
    (appendShift f0 b1).file
      = FileState.wb (some ⟨canonicalHeaders, flattenRows b1⟩) ∧
    (flattenRows b1).length = 8 ∧
    (∀ i, (flattenRows b1)[i]? = (b1.spoutData[i]?).map (fun s => mkRow b1 s i)) ∧
    (∀ i s, (mkRow b1 s i).spout = Cell.str ("Spout " ++ toString (i + 1))) ∧
    (appendShift (appendShift f0 b1).file b2).response = Response.success ∧
    (appendShift (appendShift f0 b1).file b2).file
      = FileState.wb (some ⟨canonicalHeaders, flattenRows b1 ++ flattenRows b2⟩) ∧
    (flattenRows b1 ++ flattenRows b2).length = 16 ∧
    (flattenRows b1 ++ flattenRows b2).take 8 = flattenRows b1 := by
  have hlen1 : (flattenRows b1).length = 8 := by rw [flattenRows_length, h1]
  have hlen2 : (flattenRows b2).length = 8 := by rw [flattenRows_length, h2]
  have hfile1 : (appendShift f0 b1).file
      = FileState.wb (some ⟨canonicalHeaders, flattenRows b1⟩) := by
    rcases h0 with h | h <;> subst h <;> rfl
  refine ⟨?_, hfile1, hlen1, fun i => flattenRows_getElem? b1 i, fun i s => rfl, ?_, ?_, ?_, ?_⟩
  · rcases h0 with h | h <;> subst h <;> rfl
  · rw [hfile1]; rfl
  · rw [hfile1]; rfl
  · simp [hlen1, hlen2]
  · rw [← hlen1, List.take_left]

/-- C1 witness: the round-trip theorem applied to two concrete 8-spout
bodies starting from a nonexistent file. -/
theorem c1_roundTrip_append_witness :
    (appendShift FileState.absent sampleBody).response = Response.success ∧
    (appendShift FileState.absent sampleBody).file
      = FileState.wb (some ⟨canonicalHeaders, flattenRows sampleBody⟩) ∧
    (flattenRows sampleBody).length = 8 ∧
    (∀ i, (flattenRows sampleBody)[i]?
      = (sampleBody.spoutData[i]?).map (fun s => mkRow sampleBody s i)) ∧
    (∀ i s, (mkRow sampleBody s i).spout = Cell.str ("Spout " ++ toString (i + 1))) ∧
    (appendShift (appendShift FileState.absent sampleBody).file sampleBodyB).response
      = Response.success ∧
    (appendShift (appendShift FileState.absent sampleBody).file sampleBodyB).file
      = FileState.wb
          (some ⟨canonicalHeaders, flattenRows sampleBody ++ flattenRows sampleBodyB⟩) ∧
    (flattenRows sampleBody ++ flattenRows sampleBodyB).length = 16 ∧
    (flattenRows sampleBody ++ flattenRows sampleBodyB).take 8 = flattenRows sampleBody :=
  c1_roundTrip_append sampleBody sampleBodyB FileState.absent (Or.inl rfl) rfl rfl

/-- C6 counterexample: the schema the backend bootstraps has ten columns and
none of them is a standard-deviation column, so the bootstrapped header is
not the canonical PersistedRow schema of the spec (which includes
`standardDeviation`). -/
theorem c6_schema_cex :
    canonicalColumns.map Column.key
      = ["date", "time", "operatorName", "shift", "spout", "sample1", "sample2",
         "sample3", "average", "comments"] ∧
    "standardDeviation" ∉ canonicalColumns.map Column.key ∧
    canonicalColumns.map Column.key ≠ specPersistedRowKeys ∧
    (appendShift FileState.absent sampleBody).file
      = FileState.wb (some ⟨canonicalHeaders, flattenRows sampleBody⟩) :=
  ⟨rfl, by decide, by decide, rfl⟩

/-- C6 amended: when the target file is absent or unreadable, `appendShift`
bootstraps a sheet whose header is exactly the Store's fixed ten-column
schema `Date, Time, Operator, Shift, Spout, Sample 1..3, Average, Comments`
(no standard-deviation column); the bootstrap happens at most once per file —
any later append to a readable sheet reuses the stored header unchanged. -/
theorem c6_schema_amended (b b' : ShiftPayload) :
    (appendShift FileState.absent b).file
      = FileState.wb (some ⟨canonicalHeaders, flattenRows b⟩) ∧
    (appendShift FileState.corrupt b).file
      = FileState.wb (some ⟨canonicalHeaders, flattenRows b⟩) ∧
    (appendShift (appendShift FileState.absent b).file b').file
      = FileState.wb (some ⟨canonicalHeaders, flattenRows b ++ flattenRows b'⟩) ∧
    canonicalHeaders
      = ["Date", "Time", "Operator", "Shift", "Spout", "Sample 1", "Sample 2",
         "Sample 3", "Average", "Comments"] ∧
    (∀ cols rows, (appendShift (FileState.wb (some ⟨cols, rows⟩)) b).file
      = FileState.wb (some ⟨cols, rows ++ flattenRows b⟩)) :=
  ⟨rfl, rfl, rfl, rfl, fun _ _ => rfl⟩

/-- C7 counterexample: with an existing readable sheet whose header is not
the expected schema, the call succeeds (no SchemaMismatchError), appends its
rows anyway and rewrites the file — the claim requires the call to fail and
the file to stay untouched. -/
theorem c7_schemaMismatch_cex :
    (appendShift (FileState.wb (some ⟨["Bogus"], []⟩)) sampleBody).response
      = Response.success ∧
    (appendShift (FileState.wb (some ⟨["Bogus"], []⟩)) sampleBody).file
      = FileState.wb (some ⟨["Bogus"], flattenRows sampleBody⟩) ∧
    (appendShift (FileState.wb (some ⟨["Bogus"], []⟩)) sampleBody).file
      ≠ FileState.wb (some ⟨["Bogus"], []⟩) :=
  ⟨rfl, rfl, by decide⟩

/-- C7 amended: the Store performs no header validation at all — whenever the
file is readable and the `Weight Checks` sheet is present, the rows are
appended under the existing header (whatever it is) and the file rewritten
with success; only a readable file lacking the sheet makes the call fail
(generic 500 from `sheet.addRow` on undefined), and in that case the file is
left untouched. -/
theorem c7_schemaMismatch_amended (cols : List String) (rows : List Row)
    (b : ShiftPayload) :
    appendShift (FileState.wb (some ⟨cols, rows⟩)) b
      = ⟨Response.success, FileState.wb (some ⟨cols, rows ++ flattenRows b⟩)⟩ ∧
    appendShift (FileState.wb none) b
      = ⟨Response.serverError, FileState.wb none⟩ :=
  ⟨rfl, rfl⟩

/-- C9: the handler's read and write are not serialized, so the interleaving
`A reads, B reads, A writes, B writes` of two concurrent 8-group POSTs to a
fresh path loses A's rows and ends with only 8 data rows, while the
serialized schedule ends with 16. -/
theorem c9_lost_update_eval :
    rowCount (runRace FileState.absent sampleBody sampleBodyB
      [RaceAction.readA, RaceAction.readB, RaceAction.writeA, RaceAction.writeB]) = 8 ∧
    rowCount (runRace FileState.absent sampleBody sampleBodyB
      [RaceAction.readA, RaceAction.writeA, RaceAction.readB, RaceAction.writeB]) = 16 :=
  ⟨rfl, rfl⟩

/-- C4: `isWeightInRange` (both variants) returns true exactly when the raw
weight coerces to a finite number lying in `[MIN_WEIGHT, MAX_WEIGHT]`
inclusive; the empty string, malformed strings and infinities are never in
range, and both endpoints are in range. -/
theorem c4_isWeightInRange_characterization (w : RawInput) :
    (isWeightInRange w = true
      ↔ ∃ q : ℚ, toNumber w = JSNum.fin q ∧ MIN_WEIGHT ≤ q ∧ q ≤ MAX_WEIGHT) ∧
    (isWeightInRange3 w = true
      ↔ ∃ q : ℚ, toNumber w = JSNum.fin q ∧ MIN_WEIGHT ≤ q ∧ q ≤ MAX_WEIGHT) := by
  have hmin : (0 : ℚ) < MIN_WEIGHT := by
    rw [MIN_WEIGHT, TARGET_WEIGHT, TOLERANCE]; norm_num
  cases w with
  | empty =>
    constructor <;> constructor
    · intro h; simp [isWeightInRange] at h
    · rintro ⟨q, hq, h1, h2⟩
      simp only [toNumber, JSNum.fin.injEq] at hq
      subst hq
      exact absurd h1 (by linarith)
    · intro h
      simp [isWeightInRange3, toNumber, jsGe, jsLe] at h
      exact absurd h.1 (by linarith)
    · rintro ⟨q, hq, h1, h2⟩
      simp only [toNumber, JSNum.fin.injEq] at hq
      subst hq
      exact absurd h1 (by linarith)
  | numeric q =>
    constructor
    · simp [isWeightInRange, toNumber, jsGe, jsLe]
    · simp [isWeightInRange3, toNumber, jsGe, jsLe]
  | infinite b =>
    constructor <;> constructor
    · intro h
      simp [isWeightInRange, toNumber, jsGe, jsLe] at h
    · rintro ⟨q, hq, -, -⟩; cases hq
    · intro h
      simp [isWeightInRange3, toNumber, jsGe, jsLe] at h
    · rintro ⟨q, hq, -, -⟩; cases hq
  | malformed =>
    constructor <;> constructor
    · intro h; simp [isWeightInRange, toNumber, jsGe, jsLe] at h
    · rintro ⟨q, hq, -, -⟩; cases hq
    · intro h; simp [isWeightInRange3, toNumber, jsGe, jsLe] at h
    · rintro ⟨q, hq, -, -⟩; cases hq

/-- C8: an empty required operator name makes `handleSubmit` throw its
validation error before the `fetch`, so no persistence request is ever
issued for such a ShiftRecord. -/
theorem c8_validation_before_persist (fd : FormState) (h : fd.operatorName = "") :
    handleSubmit fd = SubmitOutcome.validationError "Operator name is required" ∧
    ∀ p, handleSubmit fd ≠ SubmitOutcome.post p := by
  have htrim : isBlank fd.operatorName = true := by rw [h]; decide
  refine ⟨by simp [handleSubmit, htrim], fun p hp => ?_⟩
  simp [handleSubmit, htrim] at hp

/-- C8 witness: the initial form state has an empty operator name and its
submission stops at the validation error. -/
theorem c8_validation_before_persist_witness :
    handleSubmit INITIAL_FORM_STATE
      = SubmitOutcome.validationError "Operator name is required" ∧
    ∀ p, handleSubmit INITIAL_FORM_STATE ≠ SubmitOutcome.post p :=
  c8_validation_before_persist INITIAL_FORM_STATE rfl

lemma calcStatsWith_of_malformed_mem (d1 d2 : ℕ) (sqrtFn : ℚ → ℚ)
    (samples : List RawInput) (h : RawInput.malformed ∈ samples) :
    calcStatsWith d1 d2 sqrtFn samples = ⟨.nan, .nan⟩ := by
  have hnanmem : JSNum.nan ∈ filteredSamples samples := by
    simp only [filteredSamples, List.mem_map, List.mem_filter]
    exact ⟨.malformed, ⟨h, by simp⟩, rfl⟩
  have hne : (filteredSamples samples).length ≠ 0 := by
    intro h0
    rw [List.length_eq_zero] at h0
    rw [h0] at hnanmem
    cases hnanmem
  have hsum : jsSum (filteredSamples samples) = .nan := jsSum_eq_nan_of_mem hnanmem
  have havg : jsDivNat (jsSum (filteredSamples samples)) (filteredSamples samples).length
      = .nan := by rw [hsum]; rfl
  have hmapmem : JSNum.nan ∈ (filteredSamples samples).map (fun b => jsPow2 (jsSub b
      (jsDivNat (jsSum (filteredSamples samples)) (filteredSamples samples).length))) := by
    rw [List.mem_map]
    refine ⟨.nan, hnanmem, ?_⟩
    show jsPow2 (jsAdd .nan _) = .nan
    rw [jsAdd_nan_left]
    rfl
  have hvr : jsDivNat (jsSum ((filteredSamples samples).map (fun b => jsPow2 (jsSub b
      (jsDivNat (jsSum (filteredSamples samples)) (filteredSamples samples).length)))))
      (filteredSamples samples).length = .nan := by
    rw [jsSum_eq_nan_of_mem hmapmem]
    rfl
  rw [calcStatsWith_of_length_ne d1 d2 sqrtFn samples hne, hvr, havg]
  rfl

/-- C2 counterexample: with every present sample equal to `v = 49.25` the
first `calculateStats` returns the rounded average 49.3, not `{v, 0}`; and
the second variant rounds the average of `v = 50.125` to two decimal places
(50.13), which is neither `v` nor the one-decimal rounding 50.1 the claim
describes. -/
theorem c2_stats_rounding_cex :
    calculateStats Rat.sqrt [RawInput.numeric (197/4)]
      = ⟨.fin (493/10), .fin 0⟩ ∧
    calculateStats Rat.sqrt [RawInput.numeric (197/4)]
      ≠ ⟨.fin (197/4), .fin 0⟩ ∧
    calculateStats3 Rat.sqrt [RawInput.numeric (401/8)]
      = ⟨.fin (5013/100), .fin 0⟩ ∧
    calculateStats3 Rat.sqrt [RawInput.numeric (401/8)]
      ≠ ⟨.fin (401/8), .fin 0⟩ ∧
    calculateStats3 Rat.sqrt [RawInput.numeric (401/8)]
      ≠ ⟨.fin (501/10), .fin 0⟩ := by
  have h1 : calculateStats Rat.sqrt [RawInput.numeric (197/4)]
      = ⟨.fin (493/10), .fin 0⟩ := by
    simp [calculateStats, calcStatsWith, filteredSamples, toNumber, jsSum, jsAdd, jsDivNat,
      jsSub, jsNeg, jsMul, jsPow2, jsSqrt, roundFix, Rat.sqrt]
    norm_num
  have h2 : calculateStats3 Rat.sqrt [RawInput.numeric (401/8)]
      = ⟨.fin (5013/100), .fin 0⟩ := by
    simp [calculateStats3, calcStatsWith, filteredSamples, toNumber, jsSum, jsAdd, jsDivNat,
      jsSub, jsNeg, jsMul, jsPow2, jsSqrt, roundFix, Rat.sqrt]
    norm_num
  refine ⟨h1, ?_, h2, ?_, ?_⟩
  · rw [h1]
    simp only [ne_eq, Stats.mk.injEq, JSNum.fin.injEq, not_and]
    intro hq
    norm_num at hq
  · rw [h2]
    simp only [ne_eq, Stats.mk.injEq, JSNum.fin.injEq, not_and]
    intro hq
    norm_num at hq
  · rw [h2]
    simp only [ne_eq, Stats.mk.injEq, JSNum.fin.injEq, not_and]
    intro hq
    norm_num at hq

/-- C2 amended: `calculateStats` filters out empty-string samples and returns
`{0, 0}` when none remain; otherwise it returns the mean and the population
standard deviation each rounded — one decimal place in the lines-35-44
variant, two decimals for the average and three for the standard deviation in
the lines-805-816 variant — so with every present sample equal to `v` it
returns `{round(v), 0}`, which equals `{v, 0}` exactly when `v` is a multiple
of the rounding step (here: a multiple of 1/10). -/
theorem c2_stats_amended (sqrtFn : ℚ → ℚ) (hs : sqrtFn 0 = 0) (v : ℚ) (k : ℤ)
    (hv : v = (k : ℚ) / 10) (samples : List RawInput)
    (hall : ∀ s ∈ samples, s = RawInput.empty ∨ s = RawInput.numeric v)
    (hmem : RawInput.numeric v ∈ samples)
    (samplesE : List RawInput) (hE : ∀ s ∈ samplesE, s = RawInput.empty) :
    calculateStats sqrtFn samples = ⟨.fin v, .fin 0⟩ ∧
    calculateStats3 sqrtFn samples = ⟨.fin v, .fin 0⟩ ∧
    calculateStats sqrtFn samplesE = ⟨.fin 0, .fin 0⟩ ∧
    calculateStats3 sqrtFn samplesE = ⟨.fin 0, .fin 0⟩ := by
  have hpow1 : v * (10 : ℚ) ^ (1 : ℕ) = (k : ℚ) := by
    rw [hv]; field_simp
  have hpow2 : v * (10 : ℚ) ^ (2 : ℕ) = ((10 * k : ℤ) : ℚ) := by
    rw [hv]; push_cast; field_simp; ring
  have hr1 : roundFix 1 (.fin v) = .fin v := roundFix_exact 1 v k hpow1
  have hr2 : roundFix 2 (.fin v) = .fin v := roundFix_exact 2 v (10 * k) hpow2
  refine ⟨?_, ?_, calcStatsWith_all_empty 1 1 sqrtFn samplesE hE,
    calcStatsWith_all_empty 2 3 sqrtFn samplesE hE⟩
  · show calcStatsWith 1 1 sqrtFn samples = _
    rw [calcStatsWith_allsame 1 1 sqrtFn hs v samples hall hmem, hr1]
  · show calcStatsWith 2 3 sqrtFn samples = _
    rw [calcStatsWith_allsame 2 3 sqrtFn hs v samples hall hmem, hr2]

/-- C2 witness: the amended statement at `v = 50` (a one-decimal value), a
mixed present/empty sample list, and an all-empty list. -/
theorem c2_stats_amended_witness :
    calculateStats Rat.sqrt [.numeric 50, .empty, .numeric 50] = ⟨.fin 50, .fin 0⟩ ∧
    calculateStats3 Rat.sqrt [.numeric 50, .empty, .numeric 50] = ⟨.fin 50, .fin 0⟩ ∧
    calculateStats Rat.sqrt [.empty, .empty, .empty] = ⟨.fin 0, .fin 0⟩ ∧
    calculateStats3 Rat.sqrt [.empty, .empty, .empty] = ⟨.fin 0, .fin 0⟩ :=
  c2_stats_amended Rat.sqrt (by simp [Rat.sqrt]) 50 500 (by norm_num)
    [.numeric 50, .empty, .numeric 50]
    (by intro s hs; fin_cases hs <;> simp) (by simp)
    [.empty, .empty, .empty] (by intro s hs; fin_cases hs <;> simp)

/-- C3 counterexample: a malformed sample is not treated as absent — it
poisons both statistics to NaN — and for range display it is classified as
out of range (red), not as the neutral state the claim requires. -/
theorem c3_malformed_cex :
    (calculateStats Rat.sqrt [RawInput.malformed, RawInput.numeric 50]).average
      = JSNum.nan ∧
    (calculateStats Rat.sqrt [RawInput.malformed, RawInput.numeric 50]).stdDev
      = JSNum.nan ∧
    getWeightColor RawInput.malformed = WeightColor.red ∧
    getWeightColor RawInput.malformed ≠ WeightColor.neutral := by
  have h := calcStatsWith_of_malformed_mem 1 1 Rat.sqrt
    [RawInput.malformed, RawInput.numeric 50] (by simp)
  refine ⟨?_, ?_, rfl, by decide⟩
  · show (calcStatsWith 1 1 Rat.sqrt _).average = _
    rw [h]
  · show (calcStatsWith 1 1 Rat.sqrt _).stdDev = _
    rw [h]

/-- C3 amended: the Engine is total (never raises), and an empty string is
treated as absent; but a malformed non-empty string coerces to NaN, which
makes both derived statistics NaN in either `calculateStats` variant, and the
range check classifies a malformed string as not-in-range, so its display
state is red (out of range), not neutral. -/
theorem c3_malformed_amended (sqrtFn : ℚ → ℚ) (samples : List RawInput)
    (h : RawInput.malformed ∈ samples) :
    (calculateStats sqrtFn samples).average = JSNum.nan ∧
    (calculateStats sqrtFn samples).stdDev = JSNum.nan ∧
    (calculateStats3 sqrtFn samples).average = JSNum.nan ∧
    (calculateStats3 sqrtFn samples).stdDev = JSNum.nan ∧
    isWeightInRange RawInput.malformed = false ∧
    isWeightInRange3 RawInput.malformed = false ∧
    getWeightColor RawInput.malformed = WeightColor.red := by
  have h1 := calcStatsWith_of_malformed_mem 1 1 sqrtFn samples h
  have h2 := calcStatsWith_of_malformed_mem 2 3 sqrtFn samples h
  exact ⟨by rw [calculateStats, h1], by rw [calculateStats, h1],
    by rw [calculateStats3, h2], by rw [calculateStats3, h2], rfl, rfl, rfl⟩

/-- C3 witness: the amended statement at a concrete one-element malformed
sample list. -/
theorem c3_malformed_amended_witness :
    (calculateStats Rat.sqrt [RawInput.malformed]).average = JSNum.nan ∧
    (calculateStats Rat.sqrt [RawInput.malformed]).stdDev = JSNum.nan ∧
    (calculateStats3 Rat.sqrt [RawInput.malformed]).average = JSNum.nan ∧
    (calculateStats3 Rat.sqrt [RawInput.malformed]).stdDev = JSNum.nan ∧
    isWeightInRange RawInput.malformed = false ∧
    isWeightInRange3 RawInput.malformed = false ∧
    getWeightColor RawInput.malformed = WeightColor.red :=
  c3_malformed_amended Rat.sqrt [RawInput.malformed] (by simp)

/-- C5 counterexample: `handleSpoutDataChange` accepts any field name, so the
derived `average` is independently settable — setting it to 1 on the initial
form leaves a spout whose stored average disagrees with the statistics of its
(still all-empty) samples. -/
theorem c5_derived_fields_cex :
    ¬ statsConsistentWith (calculateStats Rat.sqrt)
      ((handleSpoutDataChange INITIAL_FORM_STATE 0
        (SpoutUpdate.average (JSNum.fin 1))).spoutData.getD 0 INITIAL_SPOUT_DATA) := by
  intro hc
  obtain ⟨havg, -⟩ := hc
  revert havg
  decide

/-- C5 amended: `handleWeightChange` atomically re-establishes the
derived-field invariant — the spout it touches always satisfies
`average/stdDev = statsFn(samples)` in the very state it produces — and both
it and a comments-only `handleSpoutDataChange` preserve the invariant for
every spout of a consistent form; but the invariant does not hold for
arbitrary `handleSpoutDataChange` field updates, which can set
`average`/`stdDev`/`samples` directly (see the counterexample). -/
theorem c5_derived_fields_amended (statsFn : List RawInput → Stats)
    (fd : FormState) (i j : ℕ) (v : RawInput) (s : String)
    (hcons : formConsistent statsFn fd) :
    formConsistent statsFn (handleWeightChange statsFn fd i j v) ∧
    formConsistent statsFn (handleSpoutDataChange fd i (SpoutUpdate.comments s)) ∧
    (∀ sp', (handleWeightChange statsFn fd i j v).spoutData[i]? = some sp' →
      statsConsistentWith statsFn sp') := by
  refine ⟨?_, ?_, ?_⟩
  · intro sp' hmem'
    rw [handleWeightChange] at hmem'
    cases hsp : fd.spoutData[i]? with
    | none => rw [hsp] at hmem'; exact hcons sp' hmem'
    | some sp =>
      rw [hsp] at hmem'
      simp only at hmem'
      rcases List.mem_or_eq_of_mem_set hmem' with hold | hnew
      · exact hcons sp' hold
      · subst hnew; exact ⟨rfl, rfl⟩
  · intro sp' hmem'
    rw [handleSpoutDataChange] at hmem'
    cases hsp : fd.spoutData[i]? with
    | none => rw [hsp] at hmem'; exact hcons sp' hmem'
    | some sp =>
      rw [hsp] at hmem'
      simp only at hmem'
      rcases List.mem_or_eq_of_mem_set hmem' with hold | hnew
      · exact hcons sp' hold
      · subst hnew
        have hspmem : sp ∈ fd.spoutData := List.getElem?_mem hsp
        have := hcons sp hspmem
        exact ⟨this.1, this.2⟩
  · intro sp' hget
    rw [handleWeightChange] at hget
    cases hsp : fd.spoutData[i]? with
    | none => rw [hsp] at hget; rw [hsp] at hget; exact Option.noConfusion hget
    | some sp =>
      rw [hsp] at hget
      simp only at hget
      have hi : i < fd.spoutData.length := by
        by_contra hge
        rw [List.getElem?_eq_none (Nat.le_of_not_lt hge)] at hsp
        cases hsp
      rw [List.getElem?_set_eq_of_lt _ (by simpa using hi)] at hget
      injection hget with hget
      subst hget
      exact ⟨rfl, rfl⟩

/-- C5 witness: the amended statement at the (consistent) initial form state,
a sample update on spout 0 and a comment update. -/
theorem c5_derived_fields_amended_witness :
    formConsistent (calculateStats Rat.sqrt)
      (handleWeightChange (calculateStats Rat.sqrt) INITIAL_FORM_STATE 0 1 (.numeric 50)) ∧
    formConsistent (calculateStats Rat.sqrt)
      (handleSpoutDataChange INITIAL_FORM_STATE 0 (SpoutUpdate.comments "note")) ∧
    (∀ sp', (handleWeightChange (calculateStats Rat.sqrt) INITIAL_FORM_STATE 0 1
        (.numeric 50)).spoutData[0]? = some sp' →
      statsConsistentWith (calculateStats Rat.sqrt) sp') :=
  c5_derived_fields_amended (calculateStats Rat.sqrt) INITIAL_FORM_STATE 0 1
    (.numeric 50) "note" (by decide)

/-- C10: `handleWeightChange(i, j, v)` changes only spout `i`'s sample slot
`j` and that spout's derived `average`/`stdDev`: all top-level fields, every
other spout, spout `i`'s comment and its other sample slots are unchanged,
and the derived fields equal the statistics of the updated samples. -/
theorem c10_updateSample_frame (statsFn : List RawInput → Stats) (fd : FormState)
    (i j : ℕ) (v : RawInput) (h : i < fd.spoutData.length) :
    (handleWeightChange statsFn fd i j v).operatorName = fd.operatorName ∧
    (handleWeightChange statsFn fd i j v).shift = fd.shift ∧
    (handleWeightChange statsFn fd i j v).date = fd.date ∧
    (handleWeightChange statsFn fd i j v).time = fd.time ∧
    (handleWeightChange statsFn fd i j v).generalComments = fd.generalComments ∧
    (handleWeightChange statsFn fd i j v).spoutData.length = fd.spoutData.length ∧
    (∀ k, k ≠ i → (handleWeightChange statsFn fd i j v).spoutData[k]?
      = fd.spoutData[k]?) ∧
    (∀ sp sp', fd.spoutData[i]? = some sp →
      (handleWeightChange statsFn fd i j v).spoutData[i]? = some sp' →
      sp'.comments = sp.comments ∧
      sp'.samples.length = sp.samples.length ∧
      (∀ m, m ≠ j → sp'.samples[m]? = sp.samples[m]?) ∧
      (j < sp.samples.length → sp'.samples[j]? = some v) ∧
      sp'.average = (statsFn sp'.samples).average ∧
      sp'.stdDev = (statsFn sp'.samples).stdDev) := by
  obtain ⟨sp, hsp⟩ : ∃ sp, fd.spoutData[i]? = some sp :=
    ⟨fd.spoutData[i], List.getElem?_eq_getElem h⟩
  rw [handleWeightChange, hsp]
  simp only
  refine ⟨by trivial, by trivial, by trivial, by trivial, by trivial, by simp, ?_, ?_⟩
  · intro k hk
    exact List.getElem?_set_ne (fun hik => hk hik.symm)
  · intro sp0 sp' hsp0 hget
    injection hsp0 with hsp0
    subst hsp0
    rw [List.getElem?_set_eq_of_lt _ (by simpa using h)] at hget
    injection hget with hget
    subst hget
    refine ⟨rfl, by simp, ?_, ?_, rfl, rfl⟩
    · intro m hm
      exact List.getElem?_set_ne (fun hjm => hm hjm.symm)
    · intro hj
      exact List.getElem?_set_eq_of_lt _ hj

/-- C10 witness: the frame theorem applied to the initial form state at spout
0, sample 0, value 50. -/
theorem c10_updateSample_frame_witness :
    (handleWeightChange (calculateStats Rat.sqrt) INITIAL_FORM_STATE 0 0
        (.numeric 50)).operatorName = INITIAL_FORM_STATE.operatorName ∧
    (handleWeightChange (calculateStats Rat.sqrt) INITIAL_FORM_STATE 0 0
        (.numeric 50)).shift = INITIAL_FORM_STATE.shift ∧
    (handleWeightChange (calculateStats Rat.sqrt) INITIAL_FORM_STATE 0 0
        (.numeric 50)).date = INITIAL_FORM_STATE.date ∧
    (handleWeightChange (calculateStats Rat.sqrt) INITIAL_FORM_STATE 0 0
        (.numeric 50)).time = INITIAL_FORM_STATE.time ∧
    (handleWeightChange (calculateStats Rat.sqrt) INITIAL_FORM_STATE 0 0
        (.numeric 50)).generalComments = INITIAL_FORM_STATE.generalComments ∧
    (handleWeightChange (calculateStats Rat.sqrt) INITIAL_FORM_STATE 0 0
        (.numeric 50)).spoutData.length = INITIAL_FORM_STATE.spoutData.length ∧
    (∀ k, k ≠ 0 → (handleWeightChange (calculateStats Rat.sqrt) INITIAL_FORM_STATE 0 0
        (.numeric 50)).spoutData[k]? = INITIAL_FORM_STATE.spoutData[k]?) ∧
    (∀ sp sp', INITIAL_FORM_STATE.spoutData[0]? = some sp →
      (handleWeightChange (calculateStats Rat.sqrt) INITIAL_FORM_STATE 0 0
          (.numeric 50)).spoutData[0]? = some sp' →
      sp'.comments = sp.comments ∧
      sp'.samples.length = sp.samples.length ∧
      (∀ m, m ≠ 0 → sp'.samples[m]? = sp.samples[m]?) ∧
      (0 < sp.samples.length → sp'.samples[0]? = some (RawInput.numeric 50)) ∧
      sp'.average = (calculateStats Rat.sqrt sp'.samples).average ∧
      sp'.stdDev = (calculateStats Rat.sqrt sp'.samples).stdDev) :=
  c10_updateSample_frame (calculateStats Rat.sqrt) INITIAL_FORM_STATE 0 0
    (.numeric 50) (by decide)
